import Mathlib

/-!
Verification of the canvasapi/pycanvas client library (files
`pycanvas/course.py` and `canvasapi/appointment_group.py`) against its
natural-language specification.

Embedding conventions:
- A decoded JSON object body is an association list `Json` of string keys and
  scalar values (`JsonVal`).  Nested JSON values never influence the verified
  properties (the methods under study only test key membership, read scalar
  fields such as `name` / `title` / `id`, and merge key-value maps), so values
  are kept scalar.
- Python `dict` operations are mirrored exactly: `Json.get` is `dict.get`
  (first binding wins), `Json.setKey` is item assignment (replace in place or
  append), `Json.update` is `dict.update` (right operand overrides).
- The HTTP requester is a function `Responder` from a request descriptor to
  either a requester-level error (`ReqErr`: transport, authorization,
  non-2xx status) or a decoded JSON body.  Each translated method returns its
  Python result together with the list of requests it issued, in order, so
  that "no HTTP request was made" and "exactly one request was issued" are
  directly expressible.  Query/body parameters are dropped from the request
  descriptor: the spec (section 1) treats kwargs combination as mechanical
  glue outside the core, and no verified property inspects parameters.
- Python object mutation (`set_attributes`) becomes explicit state passing:
  a mutating method returns the new state of its receiver alongside its
  Python return value.
- A Python exception becomes an `Except` error value; `CanvasErr` separates
  `RequiredFieldMissing` (raised by resource methods) from errors raised by
  the requester, which the methods propagate untouched.
- `PaginatedList` (`pycanvas/paginated_list.py`, absent from the provided
  sources) is modelled from the spec, sections 3 and 4.1; see its definition
  below.
-/

/-- A scalar JSON value as decoded from a response body.  `vNull` doubles as
Python `None`. -/
inductive JsonVal where
  | vNull : JsonVal
  | vBool : Bool → JsonVal
  | vInt : Int → JsonVal
  | vStr : String → JsonVal
  deriving DecidableEq, Repr

/-- A decoded JSON object: an ordered association list of fields, mirroring a
Python dict (no duplicate keys are ever produced by the operations below, and
lookups take the first binding, as a dict would). -/
abbrev Json := List (String × JsonVal)

/-- Python `str()` of a scalar, as used by `'%s' % value` when building URL
paths. -/
def JsonVal.s : JsonVal → String
  | .vNull => "None"
  | .vBool true => "True"
  | .vBool false => "False"
  | .vInt n => toString n
  | .vStr t => t

/-- Python truthiness of a scalar value (`None`, `False`, `0` and `""` are
falsy). -/
def JsonVal.truthy : JsonVal → Bool
  | .vNull => false
  | .vBool b => b
  | .vInt n => n != 0
  | .vStr t => t != ""

/-- Python `dict[key]` lookup, `none` when the key is absent. -/
def Json.get : Json → String → Option JsonVal
  | [], _ => none
  | (k2, v2) :: rest, k => if k2 = k then some v2 else Json.get rest k

/-- Python `key in dict`. -/
def Json.hasKey (j : Json) (k : String) : Bool :=
  (j.get k).isSome

/-- Python `dict.get(key)`: the value when present, `None` otherwise. -/
def Json.getPy (j : Json) (k : String) : JsonVal :=
  (j.get k).getD .vNull

/-- Python `dict.get(key, default)`. -/
def Json.getDef (j : Json) (k : String) (d : JsonVal) : JsonVal :=
  (j.get k).getD d

/-- Python `dict[key] = value`: replace the first binding of `key` in place,
or append a new binding. -/
def Json.setKey : Json → String → JsonVal → Json
  | [], k, v => [(k, v)]
  | (k2, v2) :: rest, k, v =>
    if k2 = k then (k, v) :: rest else (k2, v2) :: Json.setKey rest k v

/-- Python `base.update(other)`: assign every binding of `other` into `base`,
so that values from `other` override those of `base`. -/
def Json.update (base other : Json) : Json :=
  other.foldl (fun acc kv => acc.setKey kv.1 kv.2) base

@[simp]
theorem Json.update_nil (j : Json) : j.update [] = j := rfl

theorem Json.get_setKey_self (j : Json) (k : String) (v : JsonVal) :
    (j.setKey k v).get k = some v := by
  induction j with
  | nil => simp [Json.setKey, Json.get]
  | cons kv rest ih =>
    by_cases h : kv.1 = k <;> simp [Json.setKey, Json.get, h, ih]

theorem Json.get_update_single (j : Json) (k : String) (v : JsonVal) :
    (j.update [(k, v)]).get k = some v := by
  simpa [Json.update] using Json.get_setKey_self j k v

/-- The resource classes that hydrated objects are tagged with.  (Canvas
"modules" are context modules; "sections" are course sections.) -/
inductive ResType where
  | user : ResType
  | enrollment : ResType
  | assignment : ResType
  | quiz : ResType
  | contextModule : ResType
  | externalTool : ResType
  | courseSection : ResType
  | page : ResType
  | course : ResType
  | appointmentGroup : ResType
  | courseNickname : ResType
  deriving DecidableEq, Repr

/-- A hydrated Resource Object: a `CanvasObject` subclass instance.  Per spec
section 4.2 its attribute set is exactly the decoded key set of the JSON it
wraps (the shared requester reference is left implicit in this value model).
`rtype` records which subclass constructed it. -/
structure ResObj where
  rtype : ResType
  attributes : Json
  deriving DecidableEq, Repr

/-- Attribute read `self.id`, the remote id every URL path interpolates. -/
def ResObj.id (o : ResObj) : JsonVal :=
  o.attributes.getPy "id"

/-- Modelled from the spec: `CanvasObject.set_attributes`
(`canvas_object.py` is absent from the provided sources).  Per spec section
4.2 hydration, each decoded key becomes an attribute; applied to an existing
object this merges the decoded keys over the current attribute map, response
values overriding. -/
def ResObj.set_attributes (o : ResObj) (js : Json) : ResObj :=
  { o with attributes := o.attributes.update js }

/-- A request descriptor: HTTP method and path.  Query/body parameters are
out of core scope (spec section 1) and no verified property inspects them. -/
structure Request where
  http_method : String
  path : String
  deriving DecidableEq, Repr

/-- An error raised by the HTTP requester collaborator (spec section 6). -/
inductive ReqErr where
  | transport : String → ReqErr
  | authorization : String → ReqErr
  | httpStatus : Nat → ReqErr
  deriving DecidableEq, Repr

/-- An exception escaping a resource method: either an error raised by the
requester and propagated untouched, or `RequiredFieldMissing` raised by the
method itself. -/
inductive CanvasErr where
  | requester : ReqErr → CanvasErr
  | requiredFieldMissing : String → CanvasErr
  deriving DecidableEq, Repr

/-- The HTTP requester collaborator: maps an issued request to an error or a
decoded JSON object body. -/
abbrev Responder := Request → Except ReqErr Json

/-- A Python argument that a method checks with `isinstance(x, dict)`:
either a dict or some non-dict value. -/
inductive PyArg where
  | dict : Json → PyArg
  | nonDict : PyArg
  deriving DecidableEq, Repr

/-- The test `isinstance(x, dict) and key in x` guarding the mutating
methods. -/
def isDictWith (k : String) : PyArg → Bool
  | .dict d => d.hasKey k
  | .nonDict => false

/-! ### Single-resource methods of `Course` (`pycanvas/course.py`)

Each method takes the responder and the receiver (plus its Python
parameters) and returns the Python result together with the list of requests
it issued.  Methods that may mutate the receiver via `set_attributes` return
the receiver's final state alongside the result. -/

/-- `Course.conclude`: DELETE `courses/:id`, return `response.json().get('conclude')`. -/
def Course.conclude (rsp : Responder) (c : ResObj) :
    Except CanvasErr JsonVal × List Request :=
  let r : Request := ⟨"DELETE", "courses/" ++ c.id.s⟩
  match rsp r with
  | .error e => (.error (.requester e), [r])
  | .ok js => (.ok (js.getPy "conclude"), [r])

/-- `Course.delete`: DELETE `courses/:id`, return `response.json().get('delete')`. -/
def Course.delete (rsp : Responder) (c : ResObj) :
    Except CanvasErr JsonVal × List Request :=
  let r : Request := ⟨"DELETE", "courses/" ++ c.id.s⟩
  match rsp r with
  | .error e => (.error (.requester e), [r])
  | .ok js => (.ok (js.getPy "delete"), [r])

/-- `Course.update`: PUT `courses/:id`; if `response.json().get('name')` is
truthy, `set_attributes(response.json())`; return
`response.json().get('name')`. -/
def Course.update (rsp : Responder) (c : ResObj) :
    (Except CanvasErr JsonVal × ResObj) × List Request :=
  let r : Request := ⟨"PUT", "courses/" ++ c.id.s⟩
  match rsp r with
  | .error e => ((.error (.requester e), c), [r])
  | .ok js =>
    let c2 := if (js.getPy "name").truthy then c.set_attributes js else c
    ((.ok (js.getPy "name"), c2), [r])

/-- `Course.get_user`: GET `courses/:id/users/:user_id`, with the
`user_id_type:user_id` path form when `user_id_type` is truthy (a non-empty
string). -/
def Course.get_user (rsp : Responder) (c : ResObj) (user_id : JsonVal)
    (user_id_type : Option String) : Except CanvasErr ResObj × List Request :=
  let uri :=
    match user_id_type with
    | some t =>
      if t = "" then "courses/" ++ c.id.s ++ "/users/" ++ user_id.s
      else "courses/" ++ c.id.s ++ "/users/" ++ t ++ ":" ++ user_id.s
    | none => "courses/" ++ c.id.s ++ "/users/" ++ user_id.s
  let r : Request := ⟨"GET", uri⟩
  match rsp r with
  | .error e => (.error (.requester e), [r])
  | .ok js => (.ok ⟨.user, js⟩, [r])

/-- `Course.enroll_user`: POST `courses/:id/enrollments` (the
`enrollment[user_id]` / `enrollment[type]` body parameters are out of core
scope), wrap the response as an `Enrollment`. -/
def Course.enroll_user (rsp : Responder) (c : ResObj) (user : ResObj)
    (enrollment_type : String) : Except CanvasErr ResObj × List Request :=
  let _ := user.id
  let _ := enrollment_type
  let r : Request := ⟨"POST", "courses/" ++ c.id.s ++ "/enrollments"⟩
  match rsp r with
  | .error e => (.error (.requester e), [r])
  | .ok js => (.ok ⟨.enrollment, js⟩, [r])

/-- `Course.preview_html`: POST `courses/:id/preview_html`, return
`response.json().get('html', '')`. -/
def Course.preview_html (rsp : Responder) (c : ResObj) (html : String) :
    Except CanvasErr JsonVal × List Request :=
  let _ := html
  let r : Request := ⟨"POST", "courses/" ++ c.id.s ++ "/preview_html"⟩
  match rsp r with
  | .error e => (.error (.requester e), [r])
  | .ok js => (.ok (js.getDef "html" (.vStr "")), [r])

/-- `Course.get_settings`: GET `courses/:id/settings`, return the decoded
body. -/
def Course.get_settings (rsp : Responder) (c : ResObj) :
    Except CanvasErr Json × List Request :=
  let r : Request := ⟨"GET", "courses/" ++ c.id.s ++ "/settings"⟩
  match rsp r with
  | .error e => (.error (.requester e), [r])
  | .ok js => (.ok js, [r])

/-- `Course.update_settings`: PUT `courses/:id/settings`, return the decoded
body. -/
def Course.update_settings (rsp : Responder) (c : ResObj) :
    Except CanvasErr Json × List Request :=
  let r : Request := ⟨"PUT", "courses/" ++ c.id.s ++ "/settings"⟩
  match rsp r with
  | .error e => (.error (.requester e), [r])
  | .ok js => (.ok js, [r])

/-- `Course.reset`: POST `courses/:id/reset_content`, wrap the response as a
`Course`. -/
def Course.reset (rsp : Responder) (c : ResObj) :
    Except CanvasErr ResObj × List Request :=
  let r : Request := ⟨"POST", "courses/" ++ c.id.s ++ "/reset_content"⟩
  match rsp r with
  | .error e => (.error (.requester e), [r])
  | .ok js => (.ok ⟨.course, js⟩, [r])

/-- `Course.get_assignment`: GET `courses/:id/assignments/:assignment_id`,
wrap the response as an `Assignment`. -/
def Course.get_assignment (rsp : Responder) (c : ResObj)
    (assignment_id : JsonVal) : Except CanvasErr ResObj × List Request :=
  let r : Request := ⟨"GET", "courses/" ++ c.id.s ++ "/assignments/" ++ assignment_id.s⟩
  match rsp r with
  | .error e => (.error (.requester e), [r])
  | .ok js => (.ok ⟨.assignment, js⟩, [r])

/-- `Course.create_assignment`: raise `RequiredFieldMissing` unless the
argument is a dict containing `'name'`; otherwise POST
`courses/:id/assignments` and wrap the response as an `Assignment`.  The
receiver is returned unchanged in every case (the source never mutates it). -/
def Course.create_assignment (rsp : Responder) (c : ResObj) (assignment : PyArg) :
    (Except CanvasErr ResObj × ResObj) × List Request :=
  if isDictWith "name" assignment then
    let r : Request := ⟨"POST", "courses/" ++ c.id.s ++ "/assignments"⟩
    match rsp r with
    | .error e => ((.error (.requester e), c), [r])
    | .ok js => ((.ok ⟨.assignment, js⟩, c), [r])
  else
    ((.error (.requiredFieldMissing "Dictionary with key 'name' is required."), c), [])

/-- `Course.get_quiz`: GET `courses/:id/quizzes/:quiz_id`, then
`quiz_json.update(\x7b'course_id': self.id\x7d)` before wrapping as a `Quiz`. -/
def Course.get_quiz (rsp : Responder) (c : ResObj) (quiz_id : JsonVal) :
    Except CanvasErr ResObj × List Request :=
  let r : Request := ⟨"GET", "courses/" ++ c.id.s ++ "/quizzes/" ++ quiz_id.s⟩
  match rsp r with
  | .error e => (.error (.requester e), [r])
  | .ok js => (.ok ⟨.quiz, js.update [("course_id", c.id)]⟩, [r])

/-- `Course.create_quiz`: raise `RequiredFieldMissing` unless the argument is
a dict containing `'title'`; otherwise POST `courses/:id/quizzes`, inject
`course_id`, and wrap as a `Quiz`. -/
def Course.create_quiz (rsp : Responder) (c : ResObj) (quiz : PyArg) :
    (Except CanvasErr ResObj × ResObj) × List Request :=
  if isDictWith "title" quiz then
    let r : Request := ⟨"POST", "courses/" ++ c.id.s ++ "/quizzes"⟩
    match rsp r with
    | .error e => ((.error (.requester e), c), [r])
    | .ok js => ((.ok ⟨.quiz, js.update [("course_id", c.id)]⟩, c), [r])
  else
    ((.error (.requiredFieldMissing "Dictionary with key 'title' is required."), c), [])

/-- `Course.get_module`: GET `courses/:id/modules/:module_id`, inject
`course_id`, wrap as a `Module`. -/
def Course.get_module (rsp : Responder) (c : ResObj) (module_id : JsonVal) :
    Except CanvasErr ResObj × List Request :=
  let r : Request := ⟨"GET", "courses/" ++ c.id.s ++ "/modules/" ++ module_id.s⟩
  match rsp r with
  | .error e => (.error (.requester e), [r])
  | .ok js => (.ok ⟨.contextModule, js.update [("course_id", c.id)]⟩, [r])

/-- `Course.create_module`: raise `RequiredFieldMissing` unless the argument
is a dict containing `'name'`; otherwise POST `courses/:id/modules`, inject
`course_id`, wrap as a `Module`. -/
def Course.create_module (rsp : Responder) (c : ResObj) (module : PyArg) :
    (Except CanvasErr ResObj × ResObj) × List Request :=
  if isDictWith "name" module then
    let r : Request := ⟨"POST", "courses/" ++ c.id.s ++ "/modules"⟩
    match rsp r with
    | .error e => ((.error (.requester e), c), [r])
    | .ok js => ((.ok ⟨.contextModule, js.update [("course_id", c.id)]⟩, c), [r])
  else
    ((.error (.requiredFieldMissing "Dictionary with key 'name' is required."), c), [])

/-- `Course.get_external_tool`: GET `courses/:id/external_tools/:tool_id`,
inject `course_id`, wrap as an `ExternalTool`. -/
def Course.get_external_tool (rsp : Responder) (c : ResObj) (tool_id : JsonVal) :
    Except CanvasErr ResObj × List Request :=
  let r : Request := ⟨"GET", "courses/" ++ c.id.s ++ "/external_tools/" ++ tool_id.s⟩
  match rsp r with
  | .error e => (.error (.requester e), [r])
  | .ok js => (.ok ⟨.externalTool, js.update [("course_id", c.id)]⟩, [r])

/-- `Course.get_section`: GET `courses/:id/sections/:section_id`, wrap as a
`Section`. -/
def Course.get_section (rsp : Responder) (c : ResObj) (section_id : JsonVal) :
    Except CanvasErr ResObj × List Request :=
  let r : Request := ⟨"GET", "courses/" ++ c.id.s ++ "/sections/" ++ section_id.s⟩
  match rsp r with
  | .error e => (.error (.requester e), [r])
  | .ok js => (.ok ⟨.courseSection, js⟩, [r])

/-- `Course.show_front_page`: GET `courses/:id/front_page`, inject
`course_id`, wrap as a `Page`. -/
def Course.show_front_page (rsp : Responder) (c : ResObj) :
    Except CanvasErr ResObj × List Request :=
  let r : Request := ⟨"GET", "courses/" ++ c.id.s ++ "/front_page"⟩
  match rsp r with
  | .error e => (.error (.requester e), [r])
  | .ok js => (.ok ⟨.page, js.update [("course_id", c.id)]⟩, [r])

/-- `Course.edit_front_page`: PUT `courses/:id/front_page`, inject
`course_id`, wrap as a `Page`. -/
def Course.edit_front_page (rsp : Responder) (c : ResObj) :
    Except CanvasErr ResObj × List Request :=
  let r : Request := ⟨"PUT", "courses/" ++ c.id.s ++ "/front_page"⟩
  match rsp r with
  | .error e => (.error (.requester e), [r])
  | .ok js => (.ok ⟨.page, js.update [("course_id", c.id)]⟩, [r])

/-- `Course.create_page`: raise `RequiredFieldMissing` unless the argument is
a dict containing `'title'`; otherwise POST `courses/:id/pages`, inject
`course_id`, wrap as a `Page`. -/
def Course.create_page (rsp : Responder) (c : ResObj) (wiki_page : PyArg) :
    (Except CanvasErr ResObj × ResObj) × List Request :=
  if isDictWith "title" wiki_page then
    let r : Request := ⟨"POST", "courses/" ++ c.id.s ++ "/pages"⟩
    match rsp r with
    | .error e => ((.error (.requester e), c), [r])
    | .ok js => ((.ok ⟨.page, js.update [("course_id", c.id)]⟩, c), [r])
  else
    ((.error (.requiredFieldMissing "Dictionary with key 'title' is required."), c), [])

/-- `Course.get_page`: GET `courses/:id/pages/:url`, inject `course_id`, wrap
as a `Page`. -/
def Course.get_page (rsp : Responder) (c : ResObj) (url : String) :
    Except CanvasErr ResObj × List Request :=
  let r : Request := ⟨"GET", "courses/" ++ c.id.s ++ "/pages/" ++ url⟩
  match rsp r with
  | .error e => (.error (.requester e), [r])
  | .ok js => (.ok ⟨.page, js.update [("course_id", c.id)]⟩, [r])

/-- `Course.create_course_section`: POST `courses/:id/sections`, wrap as a
`Section`. -/
def Course.create_course_section (rsp : Responder) (c : ResObj) :
    Except CanvasErr ResObj × List Request :=
  let r : Request := ⟨"POST", "courses/" ++ c.id.s ++ "/sections"⟩
  match rsp r with
  | .error e => (.error (.requester e), [r])
  | .ok js => (.ok ⟨.courseSection, js⟩, [r])

/-! ### Methods of `AppointmentGroup` (`canvasapi/appointment_group.py`) -/

/-- `AppointmentGroup.delete`: DELETE `appointment_groups/:id`, wrap the
response as an `AppointmentGroup`. -/
def AppointmentGroup.delete (rsp : Responder) (ag : ResObj) :
    Except CanvasErr ResObj × List Request :=
  let r : Request := ⟨"DELETE", "appointment_groups/" ++ ag.id.s⟩
  match rsp r with
  | .error e => (.error (.requester e), [r])
  | .ok js => (.ok ⟨.appointmentGroup, js⟩, [r])

/-- `AppointmentGroup.edit`: raise `RequiredFieldMissing` unless the argument
is a dict containing `'context_codes'`; otherwise PUT
`appointment_groups/:id`; if `'title' in response.json()` then
`set_attributes(response.json())` on the receiver; in either case return a
fresh `AppointmentGroup` wrapping the response.  The pair holds the Python
return value and the receiver's final state. -/
def AppointmentGroup.edit (rsp : Responder) (ag : ResObj)
    (appointment_group : PyArg) :
    (Except CanvasErr ResObj × ResObj) × List Request :=
  if isDictWith "context_codes" appointment_group then
    let r : Request := ⟨"PUT", "appointment_groups/" ++ ag.id.s⟩
    match rsp r with
    | .error e => ((.error (.requester e), ag), [r])
    | .ok js =>
      let ag2 := if js.hasKey "title" then ag.set_attributes js else ag
      ((.ok ⟨.appointmentGroup, js⟩, ag2), [r])
  else
    ((.error (.requiredFieldMissing "Dictionary with key 'context_codes' is required."), ag), [])

/-! ### The Paginated Sequence (spec sections 3 and 4.1)

`pycanvas/paginated_list.py` is not among the provided sources, so the
sequence is modelled from the spec.  The server side of the collaborator
contract is abstracted as the list of pages that the initial request and the
chain of next-links would deliver: page `i` carries a next-link exactly when
a page `i+1` exists (spec section 6: the next-link URL is self-contained,
and a missing link is terminal).  Each page is the decoded item array of one
HTTP round trip. -/

/-- The multi-page remote collection behind a list endpoint: the first page
and the pages reachable through successive next-links. -/
abbrev ServerPages := List Json × List (List Json)

/-- Modelled from the spec (section 3): the Paginated Sequence state.
`buffered_items` are constructed objects not yet yielded; `pending` is the
current request together with the pages it and its next-link successors
would deliver, or `none` for the terminal marker. -/
structure PaginatedList where
  element_type : ResType
  first_path : String
  extra_context : Json
  buffered_items : List ResObj
  pending : Option (List Json × List (List Json))
  deriving DecidableEq, Repr

/-- Modelled from the spec (section 4.1 Construct): a new sequence positioned
before its first element; no network call is made at construction time. -/
def PaginatedList.construct (t : ResType) (path : String) (ctx : Json)
    (pages : ServerPages) : PaginatedList :=
  ⟨t, path, ctx, [], some pages⟩

/-- Modelled from the spec (section 4.1 step 3): merge `extra_context` into a
decoded object, the context overriding, then construct a Resource Object of
the element type. -/
def PaginatedList.hydrate (t : ResType) (ctx : Json) (raw : Json) : ResObj :=
  ⟨t, raw.update ctx⟩

/-- The pages a pending request would still deliver (`[]` when terminal). -/
def pagesOf : Option (List Json × List (List Json)) → List (List Json)
  | none => []
  | some (p, ps) => p :: ps

/-- Repackage a page list as a pending request (`none` when no pages
remain, i.e. the arriving page had no next-link). -/
def toPending : List (List Json) → Option (List Json × List (List Json))
  | [] => none
  | p :: ps => some (p, ps)

@[simp]
theorem pagesOf_toPending (ps : List (List Json)) : pagesOf (toPending ps) = ps := by
  cases ps <;> rfl

/-- All items of a page list, hydrated, in page-then-intra-page order. -/
def hydrAll (t : ResType) (ctx : Json) (pages : List (List Json)) : List ResObj :=
  pages.foldr (fun pg acc => pg.map (PaginatedList.hydrate t ctx) ++ acc) []

@[simp]
theorem hydrAll_nil (t : ResType) (ctx : Json) : hydrAll t ctx [] = [] := rfl

@[simp]
theorem hydrAll_cons (t : ResType) (ctx : Json) (pg : List Json)
    (rest : List (List Json)) :
    hydrAll t ctx (pg :: rest) = pg.map (PaginatedList.hydrate t ctx) ++ hydrAll t ctx rest := rfl

/-- Total number of raw items across a page list. -/
def pagesItems (pages : List (List Json)) : Nat :=
  pages.foldr (fun pg acc => pg.length + acc) 0

theorem hydrAll_length (t : ResType) (ctx : Json) (pages : List (List Json)) :
    (hydrAll t ctx pages).length = pagesItems pages := by
  induction pages with
  | nil => rfl
  | cons pg rest ih => simp [pagesItems, ih]

/-- The outcome of one fetch: the element yielded (if any), the refilled
buffer, the new pending request, and the HTTP round trips performed. -/
structure FetchOut where
  yielded : Option ResObj
  buffered_items : List ResObj
  pending : Option (List Json × List (List Json))
  round_trips : Nat
  deriving DecidableEq, Repr

/-- Modelled from the spec (section 4.1 steps 1-5): issue the pending
request, decode and hydrate the arriving page, record its next-link, and
yield the first constructed object.  A page that decodes to zero items while
a next-link exists makes the sequence keep fetching (draining must still
visit every page, spec section 8), each fetch counting as one round trip. -/
def fetchLoop (t : ResType) (ctx : Json) : List Json → List (List Json) → FetchOut
  | q :: qs, rest =>
    ⟨some (PaginatedList.hydrate t ctx q), qs.map (PaginatedList.hydrate t ctx),
      toPending rest, 1⟩
  | [], rest =>
    match rest with
    | [] => ⟨none, [], none, 1⟩
    | p :: ps =>
      let r := fetchLoop t ctx p ps
      ⟨r.yielded, r.buffered_items, r.pending, r.round_trips + 1⟩

/-- The outcome of one `Advance()`: the element produced (`none` means
end-of-sequence), the sequence's new state, and the HTTP round trips
performed by this call. -/
structure StepOut where
  yielded : Option ResObj
  state : PaginatedList
  round_trips : Nat
  deriving DecidableEq, Repr

/-- Modelled from the spec (section 4.1 Advance): return the next buffered
element with no I/O when the buffer is non-empty; return end-of-sequence
with no I/O when the buffer is empty and the sequence is terminal; otherwise
fetch from the pending request. -/
def PaginatedList.advance (s : PaginatedList) : StepOut :=
  match s.buffered_items with
  | o :: rest => ⟨some o, { s with buffered_items := rest }, 0⟩
  | [] =>
    match s.pending with
    | none => ⟨none, s, 0⟩
    | some (pg, rest) =>
      let r := fetchLoop s.element_type s.extra_context pg rest
      ⟨r.yielded, { s with buffered_items := r.buffered_items, pending := r.pending },
        r.round_trips⟩

/-- Drive `Advance()` up to `fuel` times, collecting the yielded elements in
order and summing the round trips, stopping at end-of-sequence. -/
def PaginatedList.drainFuel : Nat → PaginatedList → List ResObj × PaginatedList × Nat
  | 0, s => ([], s, 0)
  | n + 1, s =>
    let st := s.advance
    match st.yielded with
    | none => ([], st.state, st.round_trips)
    | some o =>
      let r := PaginatedList.drainFuel n st.state
      (o :: r.1, r.2.1, st.round_trips + r.2.2)

/-- Drive `Advance()` exactly `n` times, returning the final state and the
total round trips performed. -/
def PaginatedList.advanceN : Nat → PaginatedList → PaginatedList × Nat
  | 0, s => (s, 0)
  | n + 1, s =>
    let st := s.advance
    let r := PaginatedList.advanceN n st.state
    (r.1, st.round_trips + r.2)

/-- The elements a sequence has yet to yield, in order. -/
def PaginatedList.contents (s : PaginatedList) : List ResObj :=
  s.buffered_items ++ hydrAll s.element_type s.extra_context (pagesOf s.pending)

/-- The HTTP round trips a full drain of the sequence still requires. -/
def PaginatedList.tripsLeft (s : PaginatedList) : Nat :=
  (pagesOf s.pending).length

/-! ### Paginated-list methods of `Course` (`pycanvas/course.py`)

Each method constructs and returns a `PaginatedList`; the second component
is the list of requests the method call itself issued, which the source
shows to be empty (the method body only constructs the sequence).  The
`pages` argument is the remote collection the sequence would walk. -/

/-- `Course.get_users`: a paginated list of `User` over
`courses/:id/search_users`, no extra context. -/
def Course.get_users (c : ResObj) (pages : ServerPages) :
    PaginatedList × List Request :=
  (PaginatedList.construct .user ("courses/" ++ c.id.s ++ "/search_users") [] pages, [])

/-- `Course.get_recent_students`: a paginated list of `User` over
`courses/:id/recent_students`, no extra context. -/
def Course.get_recent_students (c : ResObj) (pages : ServerPages) :
    PaginatedList × List Request :=
  (PaginatedList.construct .user ("courses/" ++ c.id.s ++ "/recent_students") [] pages, [])

/-- `Course.get_enrollments`: a paginated list of `Enrollment` over
`courses/:id/enrollments`, no extra context. -/
def Course.get_enrollments (c : ResObj) (pages : ServerPages) :
    PaginatedList × List Request :=
  (PaginatedList.construct .enrollment ("courses/" ++ c.id.s ++ "/enrollments") [] pages, [])

/-- `Course.get_assignments`: a paginated list of `Assignment` over
`courses/:id/assignments`, no extra context. -/
def Course.get_assignments (c : ResObj) (pages : ServerPages) :
    PaginatedList × List Request :=
  (PaginatedList.construct .assignment ("courses/" ++ c.id.s ++ "/assignments") [] pages, [])

/-- `Course.get_quizzes`: a paginated list of `Quiz` over
`courses/:id/quizzes` with extra context `course_id = self.id`. -/
def Course.get_quizzes (c : ResObj) (pages : ServerPages) :
    PaginatedList × List Request :=
  (PaginatedList.construct .quiz ("courses/" ++ c.id.s ++ "/quizzes")
    [("course_id", c.id)] pages, [])

/-- `Course.get_modules`: a paginated list of `Module` over
`courses/:id/modules` with extra context `course_id = self.id`. -/
def Course.get_modules (c : ResObj) (pages : ServerPages) :
    PaginatedList × List Request :=
  (PaginatedList.construct .contextModule ("courses/" ++ c.id.s ++ "/modules")
    [("course_id", c.id)] pages, [])

/-- `Course.get_external_tools`: a paginated list of `ExternalTool` over
`courses/:id/external_tools` with extra context `course_id = self.id`. -/
def Course.get_external_tools (c : ResObj) (pages : ServerPages) :
    PaginatedList × List Request :=
  (PaginatedList.construct .externalTool ("courses/" ++ c.id.s ++ "/external_tools")
    [("course_id", c.id)] pages, [])

/-- `Course.get_pages`: a paginated list of `Page` over `courses/:id/pages`
with extra context `course_id = self.id`. -/
def Course.get_pages (c : ResObj) (pages : ServerPages) :
    PaginatedList × List Request :=
  (PaginatedList.construct .page ("courses/" ++ c.id.s ++ "/pages")
    [("course_id", c.id)] pages, [])

/-- `Course.list_sections`: a paginated list of `Section` over
`courses/:id/sections`, no extra context. -/
def Course.list_sections (c : ResObj) (pages : ServerPages) :
    PaginatedList × List Request :=
  (PaginatedList.construct .courseSection ("courses/" ++ c.id.s ++ "/sections") [] pages, [])

/-- One fetch preserves the remaining elements and the remaining round-trip
budget: the yielded element, the refilled buffer and the still-pending pages
together are exactly the hydrated items of the pages the request would have
delivered; the round trips performed plus the pages still pending equal the
pages that were pending; and a fetch that yields nothing leaves the sequence
terminal. -/
theorem fetchLoop_spec (t : ResType) (ctx : Json) :
    ∀ (rest : List (List Json)) (pg : List Json),
      (fetchLoop t ctx pg rest).yielded.toList ++ (fetchLoop t ctx pg rest).buffered_items
          ++ hydrAll t ctx (pagesOf (fetchLoop t ctx pg rest).pending)
        = hydrAll t ctx (pg :: rest)
      ∧ (fetchLoop t ctx pg rest).round_trips
          + (pagesOf (fetchLoop t ctx pg rest).pending).length
        = (pg :: rest).length
      ∧ ((fetchLoop t ctx pg rest).yielded = none →
          (fetchLoop t ctx pg rest).buffered_items = []
          ∧ (fetchLoop t ctx pg rest).pending = none) := by
  intro rest
  induction rest with
  | nil =>
    intro pg
    cases pg with
    | nil => simp [fetchLoop, pagesOf]
    | cons q qs => simp [fetchLoop, toPending, pagesOf]
  | cons p ps ih =>
    intro pg
    cases pg with
    | nil =>
      have h := ih p
      simp only [fetchLoop, List.map_nil, List.nil_append, List.length_cons] at h ⊢
      exact ⟨h.1, by omega, h.2.2⟩
    | cons q qs =>
      simp only [fetchLoop, toPending, pagesOf, Option.toList_some, List.length_cons,
        hydrAll_cons, List.cons_append, List.nil_append]
      refine ⟨rfl, by omega, by simp⟩

/-- Draining with enough fuel yields exactly the remaining elements in
order, ends in the terminal state, and performs one round trip per pending
page. -/
theorem drainFuel_spec :
    ∀ (fuel : Nat) (s : PaginatedList),
      s.contents.length + 1 ≤ fuel →
      PaginatedList.drainFuel fuel s =
        (s.contents,
          ⟨s.element_type, s.first_path, s.extra_context, [], none⟩,
          s.tripsLeft) := by
  intro fuel
  induction fuel with
  | zero => intro s h; omega
  | succ n ih =>
    intro s h
    obtain ⟨t, path, ctx, buf, pend⟩ := s
    cases buf with
    | cons o bs =>
      have h2 : (PaginatedList.contents ⟨t, path, ctx, bs, pend⟩).length + 1 ≤ n := by
        simp only [PaginatedList.contents, List.length_append, List.length_cons] at h ⊢
        omega
      have hrec := ih ⟨t, path, ctx, bs, pend⟩ h2
      simp [PaginatedList.drainFuel, PaginatedList.advance, hrec,
        PaginatedList.contents, PaginatedList.tripsLeft]
    | nil =>
      cases pend with
      | none =>
        simp [PaginatedList.drainFuel, PaginatedList.advance,
          PaginatedList.contents, PaginatedList.tripsLeft, pagesOf]
      | some pr =>
        obtain ⟨pg, rest⟩ := pr
        have hf := fetchLoop_spec t ctx rest pg
        cases hy : (fetchLoop t ctx pg rest).yielded with
        | none =>
          obtain ⟨hbuf, hpend⟩ := hf.2.2 hy
          have hcont : hydrAll t ctx (pg :: rest) = [] := by
            have := hf.1
            rw [hy, hbuf, hpend] at this
            simpa [pagesOf] using this.symm
          have htrips : (fetchLoop t ctx pg rest).round_trips = (pg :: rest).length := by
            have := hf.2.1
            rw [hpend] at this
            simpa [pagesOf] using this
          simp [PaginatedList.drainFuel, PaginatedList.advance, hy, hbuf, hpend,
            PaginatedList.contents, PaginatedList.tripsLeft, pagesOf, hcont, htrips]
        | some o =>
          have hcont : o :: PaginatedList.contents
              ⟨t, path, ctx, (fetchLoop t ctx pg rest).buffered_items,
                (fetchLoop t ctx pg rest).pending⟩
              = PaginatedList.contents ⟨t, path, ctx, [], some (pg, rest)⟩ := by
            have := hf.1
            rw [hy] at this
            simpa [PaginatedList.contents, pagesOf] using this
          have h2 : (PaginatedList.contents
              ⟨t, path, ctx, (fetchLoop t ctx pg rest).buffered_items,
                (fetchLoop t ctx pg rest).pending⟩).length + 1 ≤ n := by
            have hlen := congrArg List.length hcont
            simp only [List.length_cons] at hlen
            omega
          have hrec := ih ⟨t, path, ctx, (fetchLoop t ctx pg rest).buffered_items,
            (fetchLoop t ctx pg rest).pending⟩ h2
          have htrips : (fetchLoop t ctx pg rest).round_trips
              + (pagesOf (fetchLoop t ctx pg rest).pending).length
              = (pg :: rest).length := hf.2.1
          simp only [PaginatedList.drainFuel, PaginatedList.advance, hy, hrec,
            PaginatedList.contents, PaginatedList.tripsLeft, Prod.mk.injEq] at hcont ⊢
          exact ⟨hcont, trivial, by simpa [pagesOf] using htrips⟩

/-! ### Concrete sample values used by the witnesses -/

/-- Sample `Course` receiver. -/
def sampleCourse : ResObj := ⟨.course, [("id", .vInt 1)]⟩

/-- Sample `AppointmentGroup` receiver. -/
def sampleGroup : ResObj := ⟨.appointmentGroup, [("id", .vInt 5), ("title", .vStr "office hours")]⟩

/-- Sample decoded response body carrying `name`, `title` and a stale
`course_id`. -/
def sampleJson : Json :=
  [("id", .vInt 3), ("name", .vStr "n"), ("title", .vStr "t"), ("course_id", .vInt 99)]

/-- Sample decoded response body with neither `name` nor `title`. -/
def sampleJsonBare : Json := [("id", .vInt 3)]

/-- Sample dict argument carrying all three mandatory keys. -/
def sampleArg : PyArg :=
  .dict [("context_codes", .vStr "course_1"), ("name", .vStr "a"), ("title", .vStr "b")]

/-- Requester that answers every request with `sampleJson`. -/
def okResponder : Responder := fun _ => .ok sampleJson

/-- Requester that answers every request with `sampleJsonBare`. -/
def bareResponder : Responder := fun _ => .ok sampleJsonBare

/-- Requester that fails every request with a transport error. -/
def errResponder : Responder := fun _ => .error (.transport "connection reset")

/-- Sample dict argument carrying only the key `name`. -/
def sampleDictName : PyArg := .dict [("name", .vStr "a")]

/-- Sample dict argument carrying only the key `title`. -/
def sampleDictTitle : PyArg := .dict [("title", .vStr "b")]

/-! ### Claim C1 -/

/-- Behaviour of the five guarded mutating methods, each on its own bad
argument: each raises `RequiredFieldMissing`, issues no HTTP request, and
leaves the receiver unchanged. -/
def RequiredFieldBlocks (rsp : Responder) (c ag : ResObj)
    (arg_cc arg_an arg_qz arg_md arg_pg : PyArg) : Prop :=
  AppointmentGroup.edit rsp ag arg_cc =
      ((.error (.requiredFieldMissing "Dictionary with key 'context_codes' is required."), ag), [])
  ∧ Course.create_assignment rsp c arg_an =
      ((.error (.requiredFieldMissing "Dictionary with key 'name' is required."), c), [])
  ∧ Course.create_quiz rsp c arg_qz =
      ((.error (.requiredFieldMissing "Dictionary with key 'title' is required."), c), [])
  ∧ Course.create_module rsp c arg_md =
      ((.error (.requiredFieldMissing "Dictionary with key 'name' is required."), c), [])
  ∧ Course.create_page rsp c arg_pg =
      ((.error (.requiredFieldMissing "Dictionary with key 'title' is required."), c), [])

/-- C1: for each validating mutating method separately, whenever its own
required key is missing from its dict argument (or that argument is not a
dict), the method raises `RequiredFieldMissing` before any call to the
requester: no HTTP request is issued and the receiver's attributes are
unchanged.  Each method takes its own argument under its own key
hypothesis, so every bad-argument invocation of every method is covered. -/
theorem claim_c1_required_field_blocks (rsp : Responder) (c ag : ResObj)
    (arg_cc arg_an arg_qz arg_md arg_pg : PyArg)
    (hcc : isDictWith "context_codes" arg_cc = false)
    (han : isDictWith "name" arg_an = false)
    (hqz : isDictWith "title" arg_qz = false)
    (hmd : isDictWith "name" arg_md = false)
    (hpg : isDictWith "title" arg_pg = false) :
    RequiredFieldBlocks rsp c ag arg_cc arg_an arg_qz arg_md arg_pg := by
  unfold RequiredFieldBlocks AppointmentGroup.edit Course.create_assignment
    Course.create_quiz Course.create_module Course.create_page
  simp [hcc, han, hqz, hmd, hpg]

/-- Witness for C1, exercising each method on a different bad argument:
`edit` on a dict without `context_codes`, `create_assignment` on a
non-dict, `create_quiz` and `create_page` on a dict holding `name` but not
`title`, `create_module` on a dict holding `title` but not `name`. -/
theorem claim_c1_witness :
    RequiredFieldBlocks errResponder sampleCourse sampleGroup
      sampleDictTitle PyArg.nonDict sampleDictName sampleDictTitle sampleDictName :=
  claim_c1_required_field_blocks errResponder sampleCourse sampleGroup
    sampleDictTitle PyArg.nonDict sampleDictName sampleDictTitle sampleDictName
    rfl rfl rfl rfl rfl

/-! ### Claim C2 -/

/-- Behaviour of the nine single-resource methods of `Course` that inject
parent context: each wraps the decoded body updated with `course_id` bound
to the course's own id, and that binding wins over any `course_id` in the
raw body. -/
def InjectsCourseId (rsp : Responder) (c : ResObj) (js : Json)
    (arg_qz arg_md arg_pg : PyArg) (qid mid tid : JsonVal) (url : String) : Prop :=
  (Course.get_quiz rsp c qid).1 = .ok ⟨.quiz, js.update [("course_id", c.id)]⟩
  ∧ (Course.create_quiz rsp c arg_qz).1.1 = .ok ⟨.quiz, js.update [("course_id", c.id)]⟩
  ∧ (Course.get_module rsp c mid).1 = .ok ⟨.contextModule, js.update [("course_id", c.id)]⟩
  ∧ (Course.create_module rsp c arg_md).1.1 = .ok ⟨.contextModule, js.update [("course_id", c.id)]⟩
  ∧ (Course.get_external_tool rsp c tid).1 = .ok ⟨.externalTool, js.update [("course_id", c.id)]⟩
  ∧ (Course.show_front_page rsp c).1 = .ok ⟨.page, js.update [("course_id", c.id)]⟩
  ∧ (Course.edit_front_page rsp c).1 = .ok ⟨.page, js.update [("course_id", c.id)]⟩
  ∧ (Course.create_page rsp c arg_pg).1.1 = .ok ⟨.page, js.update [("course_id", c.id)]⟩
  ∧ (Course.get_page rsp c url).1 = .ok ⟨.page, js.update [("course_id", c.id)]⟩
  ∧ (∀ raw : Json, (raw.update [("course_id", c.id)]).get "course_id" = some c.id)

/-- C2: every single-resource method of `Course` that injects parent context
constructs its result from the decoded response with `course_id` set to the
course's own id, overriding any `course_id` already present in the decoded
body.  Each guarded method takes its own argument under only its own
mandatory-key hypothesis, so every object-returning invocation the claim
covers is reached. -/
theorem claim_c2_course_id_injection (rsp : Responder) (c : ResObj) (js : Json)
    (arg_qz arg_md arg_pg : PyArg) (qid mid tid : JsonVal) (url : String)
    (hok : ∀ r, rsp r = .ok js)
    (hqz : isDictWith "title" arg_qz = true)
    (hmd : isDictWith "name" arg_md = true)
    (hpg : isDictWith "title" arg_pg = true) :
    InjectsCourseId rsp c js arg_qz arg_md arg_pg qid mid tid url := by
  unfold InjectsCourseId Course.get_quiz Course.create_quiz Course.get_module
    Course.create_module Course.get_external_tool Course.show_front_page
    Course.edit_front_page Course.create_page Course.get_page
  simp [hok, hqz, hmd, hpg]
  exact fun raw => Json.get_update_single raw "course_id" c.id

/-- Witness for C2 at a body that already carries a different `course_id`,
with `create_quiz` and `create_page` called on a title-only dict and
`create_module` on a name-only dict. -/
theorem claim_c2_witness :
    InjectsCourseId okResponder sampleCourse sampleJson
      sampleDictTitle sampleDictName sampleDictTitle
      (.vInt 2) (.vInt 3) (.vInt 4) "my-page" :=
  claim_c2_course_id_injection okResponder sampleCourse sampleJson
    sampleDictTitle sampleDictName sampleDictTitle
    (.vInt 2) (.vInt 3) (.vInt 4) "my-page" (fun _ => rfl) rfl rfl rfl

/-! ### Claim C3 -/

/-- Behaviour of the required-key checks for any responder: each guarded
method raises `RequiredFieldMissing` exactly when its argument is not a dict
containing the mandatory key, and issues exactly one HTTP request when the
key is present. -/
def RaisesIffMissing (rsp : Responder) (c ag : ResObj) (arg : PyArg) : Prop :=
  ((∃ m, (AppointmentGroup.edit rsp ag arg).1.1 = .error (.requiredFieldMissing m))
      ↔ isDictWith "context_codes" arg = false)
  ∧ (isDictWith "context_codes" arg = true → (AppointmentGroup.edit rsp ag arg).2.length = 1)
  ∧ ((∃ m, (Course.create_assignment rsp c arg).1.1 = .error (.requiredFieldMissing m))
      ↔ isDictWith "name" arg = false)
  ∧ (isDictWith "name" arg = true → (Course.create_assignment rsp c arg).2.length = 1)
  ∧ ((∃ m, (Course.create_quiz rsp c arg).1.1 = .error (.requiredFieldMissing m))
      ↔ isDictWith "title" arg = false)
  ∧ (isDictWith "title" arg = true → (Course.create_quiz rsp c arg).2.length = 1)
  ∧ ((∃ m, (Course.create_module rsp c arg).1.1 = .error (.requiredFieldMissing m))
      ↔ isDictWith "name" arg = false)
  ∧ (isDictWith "name" arg = true → (Course.create_module rsp c arg).2.length = 1)
  ∧ ((∃ m, (Course.create_page rsp c arg).1.1 = .error (.requiredFieldMissing m))
      ↔ isDictWith "title" arg = false)
  ∧ (isDictWith "title" arg = true → (Course.create_page rsp c arg).2.length = 1)

/-- Behaviour of the guarded methods when the key is present and the request
succeeds: each returns an object of its declared resource class wrapping the
response. -/
def ReturnsDeclaredType (rsp : Responder) (c ag : ResObj) (arg : PyArg) (js : Json) : Prop :=
  (isDictWith "context_codes" arg = true →
    (AppointmentGroup.edit rsp ag arg).1.1 = .ok ⟨.appointmentGroup, js⟩)
  ∧ (isDictWith "name" arg = true →
    (Course.create_assignment rsp c arg).1.1 = .ok ⟨.assignment, js⟩)
  ∧ (isDictWith "title" arg = true →
    (Course.create_quiz rsp c arg).1.1 = .ok ⟨.quiz, js.update [("course_id", c.id)]⟩)
  ∧ (isDictWith "name" arg = true →
    (Course.create_module rsp c arg).1.1 = .ok ⟨.contextModule, js.update [("course_id", c.id)]⟩)
  ∧ (isDictWith "title" arg = true →
    (Course.create_page rsp c arg).1.1 = .ok ⟨.page, js.update [("course_id", c.id)]⟩)

/-- C3: each guarded mutating method raises `RequiredFieldMissing` if and
only if its argument is not a dict containing its mandatory key
(`context_codes` for `AppointmentGroup.edit`, `name` for
`Course.create_assignment` and `Course.create_module`, `title` for
`Course.create_quiz` and `Course.create_page`); when the key is present,
exactly one HTTP request is issued and, when that request succeeds, an
object of the declared resource class is returned. -/
theorem claim_c3_required_check_iff (rsp : Responder) (c ag : ResObj) (arg : PyArg)
    (js : Json) :
    RaisesIffMissing rsp c ag arg
    ∧ ((∀ r, rsp r = .ok js) → ReturnsDeclaredType rsp c ag arg js) := by
  constructor
  · unfold RaisesIffMissing
    refine ⟨?_, ?_, ?_, ?_, ?_, ?_, ?_, ?_, ?_, ?_⟩
    · cases h : isDictWith "context_codes" arg with
      | false => simp [AppointmentGroup.edit, h]
      | true =>
        simp only [AppointmentGroup.edit, h, if_true]
        cases hr : rsp ⟨"PUT", "appointment_groups/" ++ ag.id.s⟩ <;> simp [hr]
    · intro h
      simp only [AppointmentGroup.edit, h, if_true]
      cases hr : rsp ⟨"PUT", "appointment_groups/" ++ ag.id.s⟩ <;> simp [hr]
    · cases h : isDictWith "name" arg with
      | false => simp [Course.create_assignment, h]
      | true =>
        simp only [Course.create_assignment, h, if_true]
        cases hr : rsp ⟨"POST", "courses/" ++ c.id.s ++ "/assignments"⟩ <;> simp [hr]
    · intro h
      simp only [Course.create_assignment, h, if_true]
      cases hr : rsp ⟨"POST", "courses/" ++ c.id.s ++ "/assignments"⟩ <;> simp [hr]
    · cases h : isDictWith "title" arg with
      | false => simp [Course.create_quiz, h]
      | true =>
        simp only [Course.create_quiz, h, if_true]
        cases hr : rsp ⟨"POST", "courses/" ++ c.id.s ++ "/quizzes"⟩ <;> simp [hr]
    · intro h
      simp only [Course.create_quiz, h, if_true]
      cases hr : rsp ⟨"POST", "courses/" ++ c.id.s ++ "/quizzes"⟩ <;> simp [hr]
    · cases h : isDictWith "name" arg with
      | false => simp [Course.create_module, h]
      | true =>
        simp only [Course.create_module, h, if_true]
        cases hr : rsp ⟨"POST", "courses/" ++ c.id.s ++ "/modules"⟩ <;> simp [hr]
    · intro h
      simp only [Course.create_module, h, if_true]
      cases hr : rsp ⟨"POST", "courses/" ++ c.id.s ++ "/modules"⟩ <;> simp [hr]
    · cases h : isDictWith "title" arg with
      | false => simp [Course.create_page, h]
      | true =>
        simp only [Course.create_page, h, if_true]
        cases hr : rsp ⟨"POST", "courses/" ++ c.id.s ++ "/pages"⟩ <;> simp [hr]
    · intro h
      simp only [Course.create_page, h, if_true]
      cases hr : rsp ⟨"POST", "courses/" ++ c.id.s ++ "/pages"⟩ <;> simp [hr]
  · intro hok
    unfold ReturnsDeclaredType AppointmentGroup.edit Course.create_assignment
      Course.create_quiz Course.create_module Course.create_page
    refine ⟨?_, ?_, ?_, ?_, ?_⟩ <;> intro h <;> simp [h, hok]

/-- Witness for C3: the key-present branches at a fully-keyed dict argument
and a successful requester, and the raising branch at a non-dict argument. -/
theorem claim_c3_witness :
    (AppointmentGroup.edit okResponder sampleGroup sampleArg).2.length = 1
    ∧ ReturnsDeclaredType okResponder sampleCourse sampleGroup sampleArg sampleJson
    ∧ (∃ m, (Course.create_quiz okResponder sampleCourse PyArg.nonDict).1.1
        = .error (.requiredFieldMissing m)) := by
  have h := claim_c3_required_check_iff okResponder sampleCourse sampleGroup sampleArg sampleJson
  have h2 := claim_c3_required_check_iff okResponder sampleCourse sampleGroup PyArg.nonDict sampleJson
  exact ⟨h.1.2.1 rfl, h.2 (fun _ => rfl), h2.1.2.2.2.2.1.mpr rfl⟩

/-! ### Claim C4 -/

/-- Laziness of the nine paginated-list methods of `Course`: each issues no
HTTP request during the call itself and returns the sequence positioned
before its first element, with every server page still pending. -/
def PaginationIsLazy (c : ResObj) (pages : ServerPages) : Prop :=
  ((Course.get_users c pages).2 = []
    ∧ (Course.get_users c pages).1.buffered_items = []
    ∧ (Course.get_users c pages).1.pending = some pages)
  ∧ ((Course.get_recent_students c pages).2 = []
    ∧ (Course.get_recent_students c pages).1.buffered_items = []
    ∧ (Course.get_recent_students c pages).1.pending = some pages)
  ∧ ((Course.get_enrollments c pages).2 = []
    ∧ (Course.get_enrollments c pages).1.buffered_items = []
    ∧ (Course.get_enrollments c pages).1.pending = some pages)
  ∧ ((Course.get_assignments c pages).2 = []
    ∧ (Course.get_assignments c pages).1.buffered_items = []
    ∧ (Course.get_assignments c pages).1.pending = some pages)
  ∧ ((Course.get_quizzes c pages).2 = []
    ∧ (Course.get_quizzes c pages).1.buffered_items = []
    ∧ (Course.get_quizzes c pages).1.pending = some pages)
  ∧ ((Course.get_modules c pages).2 = []
    ∧ (Course.get_modules c pages).1.buffered_items = []
    ∧ (Course.get_modules c pages).1.pending = some pages)
  ∧ ((Course.get_external_tools c pages).2 = []
    ∧ (Course.get_external_tools c pages).1.buffered_items = []
    ∧ (Course.get_external_tools c pages).1.pending = some pages)
  ∧ ((Course.get_pages c pages).2 = []
    ∧ (Course.get_pages c pages).1.buffered_items = []
    ∧ (Course.get_pages c pages).1.pending = some pages)
  ∧ ((Course.list_sections c pages).2 = []
    ∧ (Course.list_sections c pages).1.buffered_items = []
    ∧ (Course.list_sections c pages).1.pending = some pages)

/-- C4: every paginated-list method of `Course` makes no HTTP request during
the call itself; it constructs and returns the sequence positioned before
its first element without invoking the requester. -/
theorem claim_c4_pagination_lazy (c : ResObj) (pages : ServerPages) :
    PaginationIsLazy c pages := by
  unfold PaginationIsLazy Course.get_users Course.get_recent_students
    Course.get_enrollments Course.get_assignments Course.get_quizzes
    Course.get_modules Course.get_external_tools Course.get_pages
    Course.list_sections
  simp [PaginatedList.construct]

/-! ### Claim C5 -/

/-- C5: draining a Paginated Sequence over a collection split into pages
`p :: ps` yields exactly the hydrated items of every page, in page-arrival
order and within-page position order, performing exactly one HTTP round
trip per page; the count of yielded elements is the sum of the page sizes.
The fuel only bounds the number of `Advance()` calls the drain may make. -/
theorem claim_c5_drain_yields_all_pages (t : ResType) (path : String) (ctx : Json)
    (p : List Json) (ps : List (List Json)) (fuel : Nat)
    (h : pagesItems (p :: ps) + 1 ≤ fuel) :
    PaginatedList.drainFuel fuel (PaginatedList.construct t path ctx (p, ps)) =
      (hydrAll t ctx (p :: ps), ⟨t, path, ctx, [], none⟩, (p :: ps).length)
    ∧ (hydrAll t ctx (p :: ps)).length = pagesItems (p :: ps) := by
  have hlen : ((PaginatedList.construct t path ctx (p, ps)).contents).length + 1 ≤ fuel := by
    simp only [PaginatedList.construct, PaginatedList.contents, pagesOf, List.nil_append]
    rw [hydrAll_length]
    exact h
  have hd := drainFuel_spec fuel (PaginatedList.construct t path ctx (p, ps)) hlen
  constructor
  · simpa [PaginatedList.construct, PaginatedList.contents, PaginatedList.tripsLeft,
      pagesOf] using hd
  · exact hydrAll_length t ctx (p :: ps)

/-- Sample first page with two items. -/
def samplePage1 : List Json := [[("id", .vInt 1)], [("id", .vInt 2)]]

/-- Sample second (and last) page with one item. -/
def samplePage2 : List Json := [[("id", .vInt 3)]]

/-- Witness for C5: two pages of sizes 2 and 1 drain to 3 elements in 2
round trips. -/
theorem claim_c5_witness :
    PaginatedList.drainFuel 4 (PaginatedList.construct .quiz "courses/1/quizzes"
        [("course_id", .vInt 7)] (samplePage1, [samplePage2])) =
      (hydrAll .quiz [("course_id", .vInt 7)] (samplePage1 :: [samplePage2]),
        ⟨.quiz, "courses/1/quizzes", [("course_id", .vInt 7)], [], none⟩,
        (samplePage1 :: [samplePage2]).length)
    ∧ (hydrAll .quiz [("course_id", .vInt 7)] (samplePage1 :: [samplePage2])).length
        = pagesItems (samplePage1 :: [samplePage2]) :=
  claim_c5_drain_yields_all_pages .quiz "courses/1/quizzes" [("course_id", .vInt 7)]
    samplePage1 [samplePage2] 4 (by decide)

/-! ### Claim C6 -/

/-- C6: once a Paginated Sequence is terminal (no pending request and the
buffer drained), `Advance()` returns end-of-sequence with the state
untouched, and any number of further `Advance()` calls leaves the state
unchanged and performs zero HTTP round trips. -/
theorem claim_c6_terminal_is_stable (s : PaginatedList) (n : Nat)
    (hb : s.buffered_items = []) (hp : s.pending = none) :
    s.advance = ⟨none, s, 0⟩ ∧ PaginatedList.advanceN n s = (s, 0) := by
  have hadv : s.advance = ⟨none, s, 0⟩ := by
    obtain ⟨t, path, ctx, buf, pend⟩ := s
    simp only at hb hp
    subst hb
    subst hp
    rfl
  refine ⟨hadv, ?_⟩
  induction n with
  | zero => rfl
  | succ m ih => simp [PaginatedList.advanceN, hadv, ih]

/-- Sample terminal sequence. -/
def sampleTerminal : PaginatedList := ⟨.quiz, "courses/1/quizzes", [], [], none⟩

/-- Witness for C6 at a concrete terminal sequence, re-driven three times. -/
theorem claim_c6_witness :
    sampleTerminal.advance = ⟨none, sampleTerminal, 0⟩
    ∧ PaginatedList.advanceN 3 sampleTerminal = (sampleTerminal, 0) :=
  claim_c6_terminal_is_stable sampleTerminal 3 rfl rfl

/-! ### Claim C7 -/

/-- Behaviour of every requester-calling method of `Course` and
`AppointmentGroup` when the requester fails: the requester's error reaches
the caller unmodified (the guarded methods are taken past their
required-key check, which precedes the request). -/
def PropagatesRequesterError (rsp : Responder) (c ag : ResObj) (arg : PyArg)
    (e : ReqErr) : Prop :=
  (Course.conclude rsp c).1 = .error (.requester e)
  ∧ (Course.delete rsp c).1 = .error (.requester e)
  ∧ (Course.update rsp c).1.1 = .error (.requester e)
  ∧ (∀ uid utype, (Course.get_user rsp c uid utype).1 = .error (.requester e))
  ∧ (∀ u et, (Course.enroll_user rsp c u et).1 = .error (.requester e))
  ∧ (∀ html, (Course.preview_html rsp c html).1 = .error (.requester e))
  ∧ (Course.get_settings rsp c).1 = .error (.requester e)
  ∧ (Course.update_settings rsp c).1 = .error (.requester e)
  ∧ (Course.reset rsp c).1 = .error (.requester e)
  ∧ (∀ aid, (Course.get_assignment rsp c aid).1 = .error (.requester e))
  ∧ (isDictWith "name" arg = true →
      (Course.create_assignment rsp c arg).1.1 = .error (.requester e))
  ∧ (∀ qid, (Course.get_quiz rsp c qid).1 = .error (.requester e))
  ∧ (isDictWith "title" arg = true →
      (Course.create_quiz rsp c arg).1.1 = .error (.requester e))
  ∧ (∀ mid, (Course.get_module rsp c mid).1 = .error (.requester e))
  ∧ (isDictWith "name" arg = true →
      (Course.create_module rsp c arg).1.1 = .error (.requester e))
  ∧ (∀ tid, (Course.get_external_tool rsp c tid).1 = .error (.requester e))
  ∧ (∀ sid, (Course.get_section rsp c sid).1 = .error (.requester e))
  ∧ (Course.show_front_page rsp c).1 = .error (.requester e)
  ∧ (Course.edit_front_page rsp c).1 = .error (.requester e)
  ∧ (isDictWith "title" arg = true →
      (Course.create_page rsp c arg).1.1 = .error (.requester e))
  ∧ (∀ url, (Course.get_page rsp c url).1 = .error (.requester e))
  ∧ (Course.create_course_section rsp c).1 = .error (.requester e)
  ∧ (AppointmentGroup.delete rsp ag).1 = .error (.requester e)
  ∧ (isDictWith "context_codes" arg = true →
      (AppointmentGroup.edit rsp ag arg).1.1 = .error (.requester e))

/-- C7: every requester-calling method of `Course` and `AppointmentGroup`
propagates a requester error unmodified to its caller, with no catching,
retrying, logging or transformation. -/
theorem claim_c7_errors_propagate (rsp : Responder) (c ag : ResObj) (arg : PyArg)
    (e : ReqErr) (herr : ∀ r, rsp r = .error e) :
    PropagatesRequesterError rsp c ag arg e := by
  unfold PropagatesRequesterError Course.conclude Course.delete Course.update
    Course.get_user Course.enroll_user Course.preview_html Course.get_settings
    Course.update_settings Course.reset Course.get_assignment
    Course.create_assignment Course.get_quiz Course.create_quiz
    Course.get_module Course.create_module Course.get_external_tool
    Course.get_section Course.show_front_page Course.edit_front_page
    Course.create_page Course.get_page Course.create_course_section
    AppointmentGroup.delete AppointmentGroup.edit
  refine ⟨?_, ?_, ?_, ?_, ?_, ?_, ?_, ?_, ?_, ?_, ?_, ?_, ?_, ?_, ?_, ?_, ?_,
    ?_, ?_, ?_, ?_, ?_, ?_, ?_⟩ <;>
    intros <;> simp_all

/-- Witness for C7 with a transport error on every request and a fully-keyed
dict argument. -/
theorem claim_c7_witness :
    PropagatesRequesterError errResponder sampleCourse sampleGroup sampleArg
      (.transport "connection reset") :=
  claim_c7_errors_propagate errResponder sampleCourse sampleGroup sampleArg
    (.transport "connection reset") (fun _ => rfl)

/-! ### Claim C8 -/

/-- C8: with a successful request, `Course.update` returns the raw value of
the response's `name` key (null when absent), not a strict boolean; it
merges the response into the receiver exactly when that value is truthy and
leaves the receiver unchanged otherwise; and it issues one request. -/
theorem claim_c8_update_returns_name (rsp : Responder) (c : ResObj) (js : Json)
    (hok : ∀ r, rsp r = .ok js) :
    (Course.update rsp c).1.1 = .ok (js.getPy "name")
    ∧ ((js.getPy "name").truthy = true → (Course.update rsp c).1.2 = c.set_attributes js)
    ∧ ((js.getPy "name").truthy = false → (Course.update rsp c).1.2 = c)
    ∧ (Course.update rsp c).2.length = 1 := by
  refine ⟨?_, ?_, ?_, ?_⟩ <;> intros <;> simp_all [Course.update]

/-- Witness for C8: a truthy `name` mutates the receiver, an absent `name`
leaves it unchanged, and the raw value is returned. -/
theorem claim_c8_witness :
    (Course.update okResponder sampleCourse).1.1 = .ok (sampleJson.getPy "name")
    ∧ (Course.update okResponder sampleCourse).1.2 = sampleCourse.set_attributes sampleJson
    ∧ (Course.update bareResponder sampleCourse).1.2 = sampleCourse := by
  have h := claim_c8_update_returns_name okResponder sampleCourse sampleJson (fun _ => rfl)
  have h2 := claim_c8_update_returns_name bareResponder sampleCourse sampleJsonBare (fun _ => rfl)
  exact ⟨h.1, h.2.1 rfl, h2.2.2.1 rfl⟩

/-! ### Claim C9 -/

/-- C9: when its argument is a dict containing `context_codes` and the
request succeeds, `AppointmentGroup.edit` merges the response into the
receiver exactly when the response contains the key `title` (the receiver
is unchanged otherwise), and in either case returns a freshly constructed
`AppointmentGroup` whose attributes are exactly the response body,
independent of the receiver's prior state. -/
theorem claim_c9_edit_updates_on_title (rsp : Responder) (ag : ResObj) (arg : PyArg)
    (js : Json) (harg : isDictWith "context_codes" arg = true)
    (hok : ∀ r, rsp r = .ok js) :
    (AppointmentGroup.edit rsp ag arg).1.1 = .ok ⟨.appointmentGroup, js⟩
    ∧ (js.hasKey "title" = true →
        (AppointmentGroup.edit rsp ag arg).1.2 = ag.set_attributes js)
    ∧ (js.hasKey "title" = false →
        (AppointmentGroup.edit rsp ag arg).1.2 = ag) := by
  refine ⟨?_, ?_, ?_⟩ <;> intros <;> simp_all [AppointmentGroup.edit]

/-- Witness for C9: a response with `title` mutates the receiver, a response
without it does not, and the returned object wraps the response alone. -/
theorem claim_c9_witness :
    (AppointmentGroup.edit okResponder sampleGroup sampleArg).1.1
        = .ok ⟨.appointmentGroup, sampleJson⟩
    ∧ (AppointmentGroup.edit okResponder sampleGroup sampleArg).1.2
        = sampleGroup.set_attributes sampleJson
    ∧ (AppointmentGroup.edit bareResponder sampleGroup sampleArg).1.2 = sampleGroup := by
  have h := claim_c9_edit_updates_on_title okResponder sampleGroup sampleArg sampleJson
    rfl (fun _ => rfl)
  have h2 := claim_c9_edit_updates_on_title bareResponder sampleGroup sampleArg sampleJsonBare
    rfl (fun _ => rfl)
  exact ⟨h.1, h.2.1 rfl, h2.2.2 rfl⟩

/-! ### Claim C10 -/

/-- Distribution of extra context across the nine paginated-list methods of
`Course`: exactly the quiz, module, external-tool and page list endpoints
pass `course_id = self.id`, the other five pass no extra context, and
hydration under empty extra context is the identity on the decoded fields. -/
def ExtraContextExactly (c : ResObj) (pages : ServerPages) : Prop :=
  (Course.get_quizzes c pages).1.extra_context = [("course_id", c.id)]
  ∧ (Course.get_modules c pages).1.extra_context = [("course_id", c.id)]
  ∧ (Course.get_external_tools c pages).1.extra_context = [("course_id", c.id)]
  ∧ (Course.get_pages c pages).1.extra_context = [("course_id", c.id)]
  ∧ (Course.get_users c pages).1.extra_context = []
  ∧ (Course.get_recent_students c pages).1.extra_context = []
  ∧ (Course.get_enrollments c pages).1.extra_context = []
  ∧ (Course.get_assignments c pages).1.extra_context = []
  ∧ (Course.list_sections c pages).1.extra_context = []
  ∧ (∀ (t : ResType) (raw : Json), PaginatedList.hydrate t [] raw = ⟨t, raw⟩)

/-- C10: only `get_quizzes`, `get_modules`, `get_external_tools` and
`get_pages` pass a `course_id = self.id` extra-context mapping to the
Paginated Sequence; `get_users`, `get_recent_students`, `get_enrollments`,
`get_assignments` and `list_sections` pass none, so objects hydrated for
them carry exactly the fields decoded from the server response. -/
theorem claim_c10_extra_context_distribution (c : ResObj) (pages : ServerPages) :
    ExtraContextExactly c pages := by
  unfold ExtraContextExactly Course.get_quizzes Course.get_modules
    Course.get_external_tools Course.get_pages Course.get_users
    Course.get_recent_students Course.get_enrollments Course.get_assignments
    Course.list_sections
  simp [PaginatedList.construct, PaginatedList.hydrate]
